import Mathlib

/-!
Shallow embedding of `setup_agent_sdks.py`, an interactive installer that
lets a user select languages and SDK kits from a catalog, clones each
selected kit's repository and runs its install commands.

Conventions of the embedding:
* Python strings are Lean `String`s; character-level scans work on `List Char`.
* The interactive environment (filesystem existence checks, prompt answers,
  external command results) is a record of oracle functions `Env`; every
  external process invocation is recorded in a trace (`List Invocation`),
  so "no command executed" is "trace = []".
* Python `set`s become `Finset`s; one iteration of a selection loop body
  (after `input().strip().lower()`) becomes a step function on the state.
-/

/-! ### Character-list utilities mirroring Python string operations -/

/-- `startsWithSeq pat l` is true when `pat` is an initial run of `l`
(Python: `l.startswith(pat)`). -/
def startsWithSeq : List Char → List Char → Bool
  | [], _ => true
  | _ :: _, [] => false
  | p :: ps, c :: cs => p == c && startsWithSeq ps cs

/-- `containsSeq pat l` is true when `pat` occurs contiguously inside `l`
(Python: `pat in l`). -/
def containsSeq (pat : List Char) : List Char → Bool
  | [] => startsWithSeq pat []
  | c :: rest => startsWithSeq pat (c :: rest) || containsSeq pat rest

/-- Propositional statement that `pat` occurs contiguously inside `l`. -/
def occursIn (pat l : List Char) : Prop := ∃ p q, l = p ++ pat ++ q

/-- `splitOnChar sep l` splits `l` at every occurrence of `sep`
(Python: `l.split(sep)`); the result is always nonempty. -/
def splitOnChar (sep : Char) : List Char → List (List Char)
  | [] => [[]]
  | c :: rest =>
    if c = sep then [] :: splitOnChar sep rest
    else
      match splitOnChar sep rest with
      | [] => [[c]]
      | h :: t => (c :: h) :: t

/-- The pattern removed from repository names: the characters of `".git"`. -/
def dotGit : List Char := ['.', 'g', 'i', 't']

/-- Python `s.replace(".git", "")`: scan left to right and delete every
non-overlapping occurrence of `".git"`. -/
def replaceDotGit : List Char → List Char
  | '.' :: 'g' :: 'i' :: 't' :: rest => replaceDotGit rest
  | c :: rest => c :: replaceDotGit rest
  | [] => []

/-- `repo_name = repo_url.split('/')[-1].replace('.git', '')`
(from `clone_repository`, line 248). -/
def repo_name_of (repo_url : String) : String :=
  String.mk (replaceDotGit ((splitOnChar '/' repo_url.toList).getLastD []))

/-- `os.path.join` restricted to the two-argument uses in the script:
an absolute second component wins; otherwise the components are joined,
inserting a `'/'` unless the first is empty or already ends in `'/'`. -/
def osPathJoin (a b : String) : String :=
  if startsWithSeq ['/'] b.toList then b
  else if a.toList.isEmpty || (a.toList.getLastD ' ' == '/') then a ++ b
  else a ++ "/" ++ b

/-- `clone_path = os.path.join(target_dir, repo_name)` (line 249). -/
def clone_path_of (target_dir repo_url : String) : String :=
  osPathJoin target_dir (repo_name_of repo_url)

/-! ### `run_command`: shell dispatch and external invocations -/

/-- Accumulator-based whitespace tokenizer: `cur` holds the characters of
the token in progress, reversed. -/
def pyTokensAux : List Char → List Char → List String
  | cur, [] => if cur.isEmpty then [] else [String.mk cur.reverse]
  | cur, c :: rest =>
    if c.isWhitespace then
      if cur.isEmpty then pyTokensAux [] rest
      else String.mk cur.reverse :: pyTokensAux [] rest
    else pyTokensAux (c :: cur) rest

/-- `command.split()` (Python `str.split` with no argument): split on runs of
whitespace, discarding empty tokens. -/
def pySplitWs (s : String) : List String :=
  pyTokensAux [] s.toList

/-- The dispatch in `run_command` (lines 233-236):
`"&&" in command or "source" in command`. -/
def usesShell (command : String) : Bool :=
  containsSeq "&&".toList command.toList || containsSeq "source".toList command.toList

/-- How `run_command` hands a command line to `subprocess.run`: either as one
string interpreted by a shell (`shell=True`), or split into a program name
and argument tokens executed directly. -/
inductive ExecMode where
  | shell : ExecMode
  | direct : List String → ExecMode
deriving DecidableEq, Repr

/-- The execution mode `run_command` chooses for `command` (lines 233-236). -/
def run_command_mode (command : String) : ExecMode :=
  if usesShell command then ExecMode.shell else ExecMode.direct (pySplitWs command)

/-- One external process invocation: the command line, the working directory
passed as `cwd` (`none` = inherited), and whether a shell interprets it. -/
structure Invocation where
  command : String
  cwd : Option String
  shell : Bool
deriving DecidableEq, Repr

/-- Oracle environment for one run: which paths exist, the (already
lower-cased and stripped) answer the user gives to the per-path
"Update existing repository? (y/n)" prompt, and the exit status (success
= `true`) of each external command at each working directory. -/
structure Env where
  pathExists : String → Bool
  updateAnswer : String → String
  cmdSucceeds : String → Option String → Bool

/-- `run_command(command, cwd)` (lines 227-244): spawns exactly one external
process and reports its success; returns the success flag and the trace of
invocations (always one). -/
def run_command (env : Env) (command : String) (cwd : Option String) :
    Bool × List Invocation :=
  (env.cmdSucceeds command cwd, [⟨command, cwd, usesShell command⟩])

/-- `clone_repository(repo_url, target_dir)` (lines 246-259): if the derived
clone path exists, prompt; answer `"y"` runs `git pull` there, any other
answer returns success with no invocation; otherwise run `git clone` in the
target directory. -/
def clone_repository (env : Env) (repo_url target_dir : String) :
    Bool × List Invocation :=
  let clone_path := clone_path_of target_dir repo_url
  if env.pathExists clone_path then
    if env.updateAnswer clone_path == "y" then
      run_command env "git pull" (some clone_path)
    else
      (true, [])
  else
    run_command env ("git clone " ++ repo_url) (some target_dir)

/-- A kit's catalog entry: repository URL and ordered install commands
(the `repo` / `install_commands` fields of `sdks.json`). -/
structure SdkData where
  repo : String
  install_commands : List String
deriving DecidableEq, Repr

/-- The `for command in install_commands` loop of `install_sdk`
(lines 281-284): run each command in the repo directory in order,
stopping at the first failure. -/
def runInstallCommands (env : Env) (cmds : List String) (repo_path : String) :
    Bool × List Invocation :=
  match cmds with
  | [] => (true, [])
  | c :: rest =>
    let r := run_command env c (some repo_path)
    if r.1 then
      let r2 := runInstallCommands env rest repo_path
      (r2.1, r.2 ++ r2.2)
    else
      (false, r.2)

/-- `install_sdk(sdk_name, sdk_data, base_dir, language)` (lines 261-290):
clone (or update) the repository; on clone failure return `False` at once;
otherwise run the install commands (none when the list is empty) and
return whether all succeeded. -/
def install_sdk (env : Env) (sdk_data : SdkData) (base_dir : String) :
    Bool × List Invocation :=
  let c := clone_repository env sdk_data.repo base_dir
  if c.1 then
    if sdk_data.install_commands.isEmpty then
      (true, c.2)
    else
      let repo_path := clone_path_of base_dir sdk_data.repo
      let r := runInstallCommands env sdk_data.install_commands repo_path
      (r.1, c.2 ++ r.2)
  else
    (false, c.2)

/-- The installation loop of `main` (lines 326-333): attempt every selected
kit in order, appending its name to the success or failure list according
to its own outcome; the third component is the concatenated trace of all
external invocations. -/
def installLoop (env : Env) (kits : List (String × SdkData)) (base_dir : String) :
    List String × List String × List Invocation :=
  match kits with
  | [] => ([], [], [])
  | (n, d) :: rest =>
    let r := install_sdk env d base_dir
    let rest' := installLoop env rest base_dir
    (if r.1 then n :: rest'.1 else rest'.1,
     if r.1 then rest'.2.1 else n :: rest'.2.1,
     r.2 ++ rest'.2.2)

/-! ### The two-stage selector -/

/-- Python `choice.isdigit()`: nonempty and all characters are digits. -/
def isDigitString (s : String) : Bool :=
  !s.isEmpty && s.toList.all (fun c => c.isDigit)

/-- Decimal value of a digit string, as computed by Python `int(choice)`. -/
def strToNat (s : String) : Nat :=
  s.toList.foldl (fun acc c => acc * 10 + (c.toNat - 48)) 0

/-- The `index = int(choice) - 1` computation (lines 137 and 208); Python
subtraction can go below zero, so the result is an `Int`. -/
def choiceIndex (choice : String) : Int :=
  (strToNat choice : Int) - 1

/-- The user-visible feedback category produced by one iteration of a
selection loop body. -/
inductive MenuMsg where
  | confirmed : MenuMsg
  | allSelected : MenuMsg
  | cleared : MenuMsg
  | toggledOn : MenuMsg
  | toggledOff : MenuMsg
  | warnEmpty : MenuMsg
  | invalidNumber : MenuMsg
  | invalidChoice : MenuMsg
deriving DecidableEq, Repr

/-- Result of one loop-body step: whether the loop exits (`done`), the new
selection set, and the feedback message category. -/
structure StepResult (α : Type) where
  done : Bool
  selected : Finset α
  msg : MenuMsg
deriving DecidableEq

/-- Initial state of `select_languages` (line 100):
`selected = set(languages)`, all languages selected by default. -/
def select_languages_init (languages : List String) : Finset String :=
  languages.toFinset

/-- One iteration of the `select_languages` loop body (lines 124-149),
given the language key list, the current selection and the normalized
input line. -/
def select_languages_step (languages : List String) (selected : Finset String)
    (choice : String) : StepResult String :=
  if choice == "done" then
    if selected = ∅ then ⟨false, selected, MenuMsg.warnEmpty⟩
    else ⟨true, selected, MenuMsg.confirmed⟩
  else if choice == "a" then ⟨false, languages.toFinset, MenuMsg.allSelected⟩
  else if choice == "n" then ⟨false, ∅, MenuMsg.cleared⟩
  else if isDigitString choice then
    if 0 ≤ choiceIndex choice ∧ choiceIndex choice < languages.length then
      if languages.getD (choiceIndex choice).toNat "" ∈ selected then
        ⟨false, selected.erase (languages.getD (choiceIndex choice).toNat ""),
         MenuMsg.toggledOff⟩
      else
        ⟨false, insert (languages.getD (choiceIndex choice).toNat "") selected,
         MenuMsg.toggledOn⟩
    else ⟨false, selected, MenuMsg.invalidNumber⟩
  else ⟨false, selected, MenuMsg.invalidChoice⟩

/-- Initial state of `display_sdk_menu` (line 172): `selected = set()`,
no kits selected. -/
def display_sdk_menu_init : Finset Nat := (∅ : Finset Nat)

/-- One iteration of the `display_sdk_menu` loop body (lines 195-219) over
a flat kit list of length `n`; the selection holds 0-based positions. -/
def display_sdk_menu_step (n : Nat) (selected : Finset Nat)
    (choice : String) : StepResult Nat :=
  if choice == "done" then
    if selected = ∅ then ⟨false, selected, MenuMsg.warnEmpty⟩
    else ⟨true, selected, MenuMsg.confirmed⟩
  else if choice == "a" then ⟨false, Finset.range n, MenuMsg.allSelected⟩
  else if choice == "n" then ⟨false, ∅, MenuMsg.cleared⟩
  else if isDigitString choice then
    if 0 ≤ choiceIndex choice ∧ choiceIndex choice < n then
      if (choiceIndex choice).toNat ∈ selected then
        ⟨false, selected.erase (choiceIndex choice).toNat, MenuMsg.toggledOff⟩
      else
        ⟨false, insert (choiceIndex choice).toNat selected, MenuMsg.toggledOn⟩
    else ⟨false, selected, MenuMsg.invalidNumber⟩
  else ⟨false, selected, MenuMsg.invalidChoice⟩

/-! ### Full Python digit semantics and the exception-aware loop bodies

`choice.isdigit()` is true for every Unicode character of Numeric_Type
Decimal or Digit, while `int(choice)` parses only Decimal characters — so
an input such as `"²"` passes the `isdigit` guard and then makes
`int(choice)` raise `ValueError`, which escapes the selection loop into
`main`'s generic handler (lines 349-351): the run aborts with
"Unexpected error" and exit status 1.  The tables below are generated from
the CPython 3.11 Unicode database. -/

/-- Base codepoints of the contiguous runs `base .. base+9` of Unicode
decimal-digit characters (Numeric_Type=Decimal); the decimal value of a
character in a run is its offset from the base. -/
def decimalRunBases : List Nat :=
  [48, 1632, 1776, 1984, 2406, 2534, 2662, 2790, 2918, 3046, 3174, 3302,
   3430, 3558, 3664, 3792, 3872, 4160, 4240, 6112, 6160, 6470, 6608, 6784,
   6800, 6992, 7088, 7232, 7248, 42528, 43216, 43264, 43472, 43504, 43600,
   44016, 65296, 66720, 68912, 69734, 69872, 69942, 70096, 70384, 70736,
   70864, 71248, 71360, 71472, 71904, 72016, 72784, 73040, 73120, 92768,
   92864, 93008, 120782, 120792, 120802, 120812, 120822, 123200, 123632,
   125264, 130032]

/-- Codepoints that `str.isdigit` classifies as digits but that have no
decimal value, so `int()` raises on them (Numeric_Type=Digit): the
superscripts and subscripts such as `'²'` (178), circled digits, etc. -/
def digitOnlyCodes : List Nat :=
  [178, 179, 185, 4969, 4970, 4971, 4972, 4973, 4974, 4975, 4976, 4977,
   6618, 8304, 8308, 8309, 8310, 8311, 8312, 8313, 8320, 8321, 8322, 8323,
   8324, 8325, 8326, 8327, 8328, 8329, 9312, 9313, 9314, 9315, 9316, 9317,
   9318, 9319, 9320, 9332, 9333, 9334, 9335, 9336, 9337, 9338, 9339, 9340,
   9352, 9353, 9354, 9355, 9356, 9357, 9358, 9359, 9360, 9450, 9461, 9462,
   9463, 9464, 9465, 9466, 9467, 9468, 9469, 9471, 10102, 10103, 10104,
   10105, 10106, 10107, 10108, 10109, 10110, 10112, 10113, 10114, 10115,
   10116, 10117, 10118, 10119, 10120, 10122, 10123, 10124, 10125, 10126,
   10127, 10128, 10129, 10130, 68160, 68161, 68162, 68163, 69216, 69217,
   69218, 69219, 69220, 69221, 69222, 69223, 69224, 69714, 69715, 69716,
   69717, 69718, 69719, 69720, 69721, 69722, 127232, 127233, 127234,
   127235, 127236, 127237, 127238, 127239, 127240, 127241, 127242]

/-- The decimal value `int()` assigns to a character, when it has one. -/
def pyDecimalValue? (c : Char) : Option Nat :=
  decimalRunBases.findSome? (fun b =>
    if b ≤ c.toNat && c.toNat < b + 10 then some (c.toNat - b) else none)

/-- Python's per-character digit test: Numeric_Type Decimal or Digit. -/
def pyIsDigitChar (c : Char) : Bool :=
  (pyDecimalValue? c).isSome || digitOnlyCodes.contains c.toNat

/-- Python `choice.isdigit()` with full Unicode semantics: nonempty and
every character a digit. -/
def pyIsDigitString (s : String) : Bool :=
  !s.isEmpty && s.toList.all pyIsDigitChar

/-- `int(choice)` on an `isdigit`-classified string: succeeds iff every
character has a decimal value, composed in base 10; `none` models the
`ValueError` raised at a digit character without a decimal value.
(`int`'s leniency for signs, surrounding whitespace and underscores never
applies here, since such characters already fail `isdigit`.) -/
def pyIntOfDigits? (s : String) : Option Nat :=
  s.toList.foldl (fun acc c =>
    match acc, pyDecimalValue? c with
    | some v, some d => some (v * 10 + d)
    | _, _ => none) (some 0)

/-- `select_languages` loop body (lines 124-149) under full Python digit
semantics: `none` models `int(choice)` raising `ValueError`, which escapes
the loop and aborts the run via `main`'s generic handler. -/
def select_languages_step_py (languages : List String) (selected : Finset String)
    (choice : String) : Option (StepResult String) :=
  if choice == "done" then
    if selected = ∅ then some ⟨false, selected, MenuMsg.warnEmpty⟩
    else some ⟨true, selected, MenuMsg.confirmed⟩
  else if choice == "a" then some ⟨false, languages.toFinset, MenuMsg.allSelected⟩
  else if choice == "n" then some ⟨false, ∅, MenuMsg.cleared⟩
  else if pyIsDigitString choice then
    match pyIntOfDigits? choice with
    | none => none
    | some v =>
      if 0 ≤ (v : Int) - 1 ∧ (v : Int) - 1 < languages.length then
        if languages.getD ((v : Int) - 1).toNat "" ∈ selected then
          some ⟨false, selected.erase (languages.getD ((v : Int) - 1).toNat ""),
                MenuMsg.toggledOff⟩
        else
          some ⟨false, insert (languages.getD ((v : Int) - 1).toNat "") selected,
                MenuMsg.toggledOn⟩
      else some ⟨false, selected, MenuMsg.invalidNumber⟩
  else some ⟨false, selected, MenuMsg.invalidChoice⟩

/-- `display_sdk_menu` loop body (lines 195-219) under full Python digit
semantics; `none` as in `select_languages_step_py`. -/
def display_sdk_menu_step_py (n : Nat) (selected : Finset Nat)
    (choice : String) : Option (StepResult Nat) :=
  if choice == "done" then
    if selected = ∅ then some ⟨false, selected, MenuMsg.warnEmpty⟩
    else some ⟨true, selected, MenuMsg.confirmed⟩
  else if choice == "a" then some ⟨false, Finset.range n, MenuMsg.allSelected⟩
  else if choice == "n" then some ⟨false, ∅, MenuMsg.cleared⟩
  else if pyIsDigitString choice then
    match pyIntOfDigits? choice with
    | none => none
    | some v =>
      if 0 ≤ (v : Int) - 1 ∧ (v : Int) - 1 < n then
        if ((v : Int) - 1).toNat ∈ selected then
          some ⟨false, selected.erase ((v : Int) - 1).toNat, MenuMsg.toggledOff⟩
        else
          some ⟨false, insert ((v : Int) - 1).toNat selected, MenuMsg.toggledOn⟩
      else some ⟨false, selected, MenuMsg.invalidNumber⟩
  else some ⟨false, selected, MenuMsg.invalidChoice⟩

/-! ### The stage-2 flat kit list -/

/-- One language of the catalog: display name and the ordered mapping
kit-name → kit data (a Python dict preserves insertion order). -/
structure LanguageInfo where
  name : String
  sdks : List (String × SdkData)
deriving DecidableEq, Repr

/-- The catalog: ordered mapping language-key → language info. -/
def Config : Type := List (String × LanguageInfo)

/-- An entry of the flat `sdk_list` built in `display_sdk_menu`
(lines 159-168). -/
structure SdkEntry where
  name : String
  language : String
  lang_display : String
  data : SdkData
deriving DecidableEq, Repr

/-- The flat kit list before sorting (lines 159-168): iterate over the
selected language keys in some enumeration order of the Python `set`
and collect every kit of each. -/
def build_sdk_list (config : Config) (order : List String) : List SdkEntry :=
  order.flatMap (fun key =>
    match List.lookup key config with
    | some lang => lang.sdks.map (fun p => ⟨p.1, key, lang.name, p.2⟩)
    | none => [])

/-- `sdk_list.sort(key=lambda x: x['name'])` (line 171): stable sort of the
flat kit list by kit name. -/
def sorted_sdk_list (config : Config) (order : List String) : List SdkEntry :=
  (build_sdk_list config order).mergeSort (fun a b => a.name ≤ b.name)

/-! ### Concrete fixtures used to instantiate the theorems -/

/-- A run in which every path is new and every command succeeds except the
clone of `https://h/beta`. -/
def envA : Env :=
  ⟨fun _ => false, fun _ => "n", fun cmd _ => !(cmd == "git clone https://h/beta")⟩

/-- Three kits; the second one's clone fails under `envA`. -/
def kitsA : List (String × SdkData) :=
  [("alpha", ⟨"https://h/alpha", ["pip install alpha"]⟩),
   ("beta", ⟨"https://h/beta", []⟩),
   ("gamma", ⟨"https://h/gamma", []⟩)]

/-- A run in which every path already exists, the user declines every
update prompt, and every command would succeed. -/
def envB : Env := ⟨fun _ => true, fun _ => "n", fun _ _ => true⟩

/-- A run in which every path is new and every command succeeds. -/
def envC : Env := ⟨fun _ => false, fun _ => "n", fun _ _ => true⟩

/-- A two-language catalog whose three kit names are pairwise distinct. -/
def configA : Config :=
  [("python", ⟨"Python", [("zeta", ⟨"https://h/zeta", []⟩),
                          ("alpha", ⟨"https://h/alpha", []⟩)]⟩),
   ("javascript", ⟨"JavaScript", [("mid", ⟨"https://h/mid", []⟩)]⟩)]

/-! ## Helper lemmas -/

theorem startsWithSeq_iff (pat : List Char) :
    ∀ l : List Char, startsWithSeq pat l = true ↔ ∃ q, l = pat ++ q := by
  induction pat with
  | nil =>
    intro l
    simp [startsWithSeq]
  | cons p ps ih =>
    intro l
    cases l with
    | nil =>
      simp [startsWithSeq]
    | cons c cs =>
      simp only [startsWithSeq, Bool.and_eq_true, beq_iff_eq, ih cs, List.cons_append]
      constructor
      · rintro ⟨rfl, q, rfl⟩
        exact ⟨q, rfl⟩
      · rintro ⟨q, h⟩
        cases h
        exact ⟨rfl, q, rfl⟩

theorem containsSeq_iff (pat : List Char) :
    ∀ l : List Char, containsSeq pat l = true ↔ occursIn pat l := by
  intro l
  induction l with
  | nil =>
    simp only [containsSeq, startsWithSeq_iff, occursIn]
    constructor
    · rintro ⟨q, h⟩
      exact ⟨[], q, by simpa using h⟩
    · rintro ⟨p, q, h⟩
      rw [List.append_assoc] at h
      rcases List.append_eq_nil.mp h.symm with ⟨rfl, h2⟩
      exact ⟨q, by simpa using h2.symm⟩
  | cons c cs ih =>
    simp only [containsSeq, Bool.or_eq_true, startsWithSeq_iff, ih, occursIn]
    constructor
    · rintro (⟨q, h⟩ | ⟨p, q, h⟩)
      · exact ⟨[], q, by simpa using h⟩
      · exact ⟨c :: p, q, by simp [h]⟩
    · rintro ⟨p, q, h⟩
      cases p with
      | nil =>
        exact Or.inl ⟨q, by simpa using h⟩
      | cons x xs =>
        rcases List.cons_eq_cons.mp h with ⟨rfl, h2⟩
        exact Or.inr ⟨xs, q, h2⟩

theorem replaceDotGit_cons_match (rest : List Char) :
    replaceDotGit ('.' :: 'g' :: 'i' :: 't' :: rest) = replaceDotGit rest := rfl

theorem replaceDotGit_cons_nomatch (c : Char) (rest : List Char)
    (h : startsWithSeq dotGit (c :: rest) = false) :
    replaceDotGit (c :: rest) = c :: replaceDotGit rest := by
  apply replaceDotGit.eq_2
  rintro rest' rfl rfl
  simp [startsWithSeq, dotGit] at h

theorem startsWithSeq_boundary (r q : List Char)
    (h : startsWithSeq dotGit r = false) (hr : r ≠ []) :
    startsWithSeq dotGit (r ++ '.' :: 'g' :: 'i' :: 't' :: q) = false := by
  match r with
  | [] => exact absurd rfl hr
  | [a] =>
    simp [startsWithSeq, dotGit]
  | [a, b] =>
    simp [startsWithSeq, dotGit]
  | [a, b, c] =>
    simp [startsWithSeq, dotGit]
  | a :: b :: c :: d :: r' =>
    simp only [startsWithSeq, dotGit, Bool.and_eq_false_iff] at h ⊢
    simpa using h

theorem replaceDotGit_of_no_occurrence :
    ∀ p : List Char, containsSeq dotGit p = false → replaceDotGit p = p := by
  intro p
  induction p with
  | nil =>
    intro _
    rfl
  | cons c cs ih =>
    intro h
    rw [containsSeq, Bool.or_eq_false_iff] at h
    rw [replaceDotGit_cons_nomatch c cs h.1, ih h.2]

theorem replaceDotGit_append :
    ∀ p q : List Char, containsSeq dotGit p = false →
      replaceDotGit (p ++ dotGit ++ q) = p ++ replaceDotGit q := by
  intro p
  induction p with
  | nil =>
    intro q _
    simpa [dotGit] using replaceDotGit_cons_match q
  | cons c cs ih =>
    intro q h
    rw [containsSeq, Bool.or_eq_false_iff] at h
    have hb : startsWithSeq dotGit ((c :: cs) ++ '.' :: 'g' :: 'i' :: 't' :: q) = false :=
      startsWithSeq_boundary (c :: cs) q h.1 (by simp)
    have hb' : startsWithSeq dotGit (c :: (cs ++ dotGit ++ q)) = false := by
      simpa [dotGit] using hb
    calc replaceDotGit ((c :: cs) ++ dotGit ++ q)
        = replaceDotGit (c :: (cs ++ dotGit ++ q)) := by simp
      _ = c :: replaceDotGit (cs ++ dotGit ++ q) :=
          replaceDotGit_cons_nomatch c (cs ++ dotGit ++ q) hb'
      _ = c :: (cs ++ replaceDotGit q) := by rw [ih q h.2]
      _ = (c :: cs) ++ replaceDotGit q := rfl

/-! ## Claim theorems -/

/-- C1, counterexample: the claim says `'.git'` is stripped only as a suffix
and a segment with an interior `'.git'` is left unchanged, so for the URL
`"https://h/a.gitx"` it predicts the repository name `"a.gitx"`; the code
(`.replace('.git', '')`) produces `"ax"`. -/
theorem clone_path_counterexample :
    repo_name_of "https://h/a.gitx" = "ax" ∧ repo_name_of "https://h/a.gitx" ≠ "a.gitx" := by
  constructor
  · rfl
  · decide

/-- C1 (amended): the Installer derives the local target path by joining the
base directory with the repository URL's final path segment after removing
every (leftmost-first, non-overlapping) occurrence of `'.git'` — in
particular a trailing `'.git'` suffix is stripped, and a segment with no
occurrence is unchanged. -/
theorem clone_path_derivation :
    (∀ base url, clone_path_of base url = osPathJoin base (repo_name_of url))
    ∧ (∀ url, repo_name_of url =
        String.mk (replaceDotGit ((splitOnChar '/' url.toList).getLastD [])))
    ∧ (∀ p, containsSeq dotGit p = false → replaceDotGit p = p)
    ∧ (∀ p q, containsSeq dotGit p = false →
        replaceDotGit (p ++ dotGit ++ q) = p ++ replaceDotGit q) := by
  refine ⟨fun _ _ => rfl, fun _ => rfl, replaceDotGit_of_no_occurrence, replaceDotGit_append⟩

/-- C1, witness: on the segment `"examplekit.git"` the suffix is stripped,
giving `"examplekit"`. -/
theorem clone_path_derivation_witness :
    containsSeq dotGit "examplekit".toList = false ∧
    replaceDotGit ("examplekit".toList ++ dotGit ++ []) = "examplekit".toList := by
  refine ⟨by decide, ?_⟩
  rw [clone_path_derivation.2.2.2 "examplekit".toList [] (by decide)]
  decide

/-- C2: `run_command` hands the command to a shell exactly when the command
contains `"&&"` or `"source"` as a contiguous substring; otherwise it is
split into whitespace-separated tokens and executed directly. -/
theorem run_command_dispatch :
    ∀ command : String,
      (run_command_mode command = ExecMode.shell ↔
        (occursIn "&&".toList command.toList ∨ occursIn "source".toList command.toList))
      ∧ (run_command_mode command ≠ ExecMode.shell →
          run_command_mode command = ExecMode.direct (pySplitWs command)) := by
  intro command
  have hiff : usesShell command = true ↔
      (occursIn "&&".toList command.toList ∨ occursIn "source".toList command.toList) := by
    rw [usesShell, Bool.or_eq_true, containsSeq_iff, containsSeq_iff]
  constructor
  · rcases hu : usesShell command with _ | _
    · rw [run_command_mode, hu]
      simp only [Bool.false_eq_true, reduceIte]
      constructor
      · intro hcontra
        exact absurd hcontra (by simp)
      · intro hocc
        exact absurd (hiff.mpr hocc) (by simp [hu])
    · rw [run_command_mode, hu]
      exact iff_of_true rfl (hiff.mp hu)
  · intro hne
    rcases hu : usesShell command with _ | _
    · rw [run_command_mode, hu]
      simp
    · exact absurd (by rw [run_command_mode, hu]; rfl) hne

/-- C2, witness: a chained command is shell-interpreted; a simple command is
split into tokens and executed directly. -/
theorem run_command_dispatch_witness :
    run_command_mode "make && make install" = ExecMode.shell ∧
    run_command_mode "pip install x" = ExecMode.direct ["pip", "install", "x"] := by
  constructor
  · exact (run_command_dispatch "make && make install").1.mpr
      (Or.inl ⟨"make ".toList, " make install".toList, by decide⟩)
  · rw [(run_command_dispatch "pip install x").2 (by decide)]
    decide

/-- C4: when the kit's clone path already exists and the user's answer to
the update prompt is anything other than `"y"`, `clone_repository` returns
success and the invocation trace is empty — no external command runs, so
nothing the model can mutate is touched. -/
theorem clone_repository_decline :
    ∀ (env : Env) (repo_url target_dir : String),
      env.pathExists (clone_path_of target_dir repo_url) = true →
      env.updateAnswer (clone_path_of target_dir repo_url) ≠ "y" →
      clone_repository env repo_url target_dir = (true, []) := by
  intro env repo_url target_dir hex hans
  rw [clone_repository]
  simp only [hex, reduceIte, beq_eq_false_iff_ne.mpr hans]
  simp

/-- C4, witness: under `envB` (path exists, answer `"n"`) the kit is
reported successful with no invocation. -/
theorem clone_repository_decline_witness :
    clone_repository envB "https://h/alpha" "base" = (true, []) :=
  clone_repository_decline envB "https://h/alpha" "base" rfl (by decide)

/-- C6: for a kit whose install command list is empty, if the clone step
succeeds then `install_sdk` returns success and its trace is exactly the
clone step's trace — zero install commands are executed. -/
theorem install_sdk_no_commands :
    ∀ (env : Env) (d : SdkData) (base_dir : String),
      d.install_commands = [] →
      (clone_repository env d.repo base_dir).1 = true →
      install_sdk env d base_dir = (true, (clone_repository env d.repo base_dir).2) := by
  intro env d base_dir hempty hclone
  rw [install_sdk]
  simp only [hclone, hempty, List.isEmpty_nil, reduceIte]

/-- C6, witness: a kit with no install commands under the all-success
environment `envC`: one invocation (the clone) and success. -/
theorem install_sdk_no_commands_witness :
    install_sdk envC ⟨"https://h/delta", []⟩ "base" =
      (true, [⟨"git clone https://h/delta", some "base", false⟩]) := by
  rw [install_sdk_no_commands envC ⟨"https://h/delta", []⟩ "base" rfl (by decide)]
  decide

/-- C5: the installation loop classifies every selected kit by its own
outcome — the success report is exactly the names of kits whose
`install_sdk` succeeds, the failure report exactly the others, and the
run's invocation trace is the concatenation of every kit's own trace (so a
failure never prevents a later kit from being attempted); moreover a failed
clone ends that kit at once, with no install command executed. -/
theorem installLoop_isolation :
    ∀ (env : Env) (base_dir : String) (kits : List (String × SdkData)),
      (installLoop env kits base_dir).1
        = (kits.filter (fun k => (install_sdk env k.2 base_dir).1)).map Prod.fst
      ∧ (installLoop env kits base_dir).2.1
        = (kits.filter (fun k => !(install_sdk env k.2 base_dir).1)).map Prod.fst
      ∧ (installLoop env kits base_dir).2.2
        = kits.flatMap (fun k => (install_sdk env k.2 base_dir).2)
      ∧ (∀ d : SdkData, (clone_repository env d.repo base_dir).1 = false →
          install_sdk env d base_dir = (false, (clone_repository env d.repo base_dir).2)) := by
  intro env base_dir kits
  refine ⟨?_, ?_, ?_, ?_⟩
  · induction kits with
    | nil => rfl
    | cons k rest ih =>
      obtain ⟨n, d⟩ := k
      rw [installLoop, List.filter_cons]
      rcases hr : (install_sdk env d base_dir).1 with _ | _
      · simpa [hr] using ih
      · simpa [hr] using ih
  · induction kits with
    | nil => rfl
    | cons k rest ih =>
      obtain ⟨n, d⟩ := k
      rw [installLoop, List.filter_cons]
      rcases hr : (install_sdk env d base_dir).1 with _ | _
      · simpa [hr] using ih
      · simpa [hr] using ih
  · induction kits with
    | nil => rfl
    | cons k rest ih =>
      obtain ⟨n, d⟩ := k
      rw [installLoop, List.flatMap_cons]
      simpa using ih
  · intro d hfail
    rw [install_sdk, hfail]
    simp

/-- C5, witness: three kits under `envA`, where only the second kit's clone
command fails: kit 1 succeeds, kit 2 fails, kit 3 is still attempted (its
clone invocation appears in the trace), and the failed kit runs no install
command. -/
theorem installLoop_isolation_witness :
    installLoop envA kitsA "base" =
      (["alpha", "gamma"], ["beta"],
       [⟨"git clone https://h/alpha", some "base", false⟩,
        ⟨"pip install alpha", some "base/alpha", false⟩,
        ⟨"git clone https://h/beta", some "base", false⟩,
        ⟨"git clone https://h/gamma", some "base", false⟩])
    ∧ install_sdk envA ⟨"https://h/beta", []⟩ "base" =
        (false, [⟨"git clone https://h/beta", some "base", false⟩]) := by
  constructor
  · decide
  · rw [(installLoop_isolation envA "base" kitsA).2.2.2 ⟨"https://h/beta", []⟩ (by decide)]
    decide

/-- C3: when the kit names occurring in the flat list are pairwise distinct
(the catalog declares them unique), the sorted stage-2 kit list does not
depend on the enumeration order of the selected-language set: any two
enumeration orders that are permutations of one another yield the same
list, so an index always denotes the same kit within one session. -/
theorem sdk_list_deterministic :
    ∀ (config : Config) (o₁ o₂ : List String),
      o₁.Perm o₂ →
      ((build_sdk_list config o₁).map SdkEntry.name).Nodup →
      sorted_sdk_list config o₁ = sorted_sdk_list config o₂ := by
  intro config o₁ o₂ hperm hnodup
  have hraw : (build_sdk_list config o₁).Perm (build_sdk_list config o₂) :=
    hperm.flatMap_right _
  have hp₁ : (sorted_sdk_list config o₁).Perm (build_sdk_list config o₁) :=
    List.mergeSort_perm _ _
  have hp₂ : (sorted_sdk_list config o₂).Perm (build_sdk_list config o₂) :=
    List.mergeSort_perm _ _
  have hs : (sorted_sdk_list config o₁).Perm (sorted_sdk_list config o₂) :=
    hp₁.trans (hraw.trans hp₂.symm)
  have hsortedAll : ∀ o : List String,
      (sorted_sdk_list config o).Pairwise (fun a b : SdkEntry => a.name ≤ b.name) := by
    intro o
    have h := @List.sorted_mergeSort SdkEntry
      (fun a b : SdkEntry => decide (a.name ≤ b.name))
      (fun a b c h₁ h₂ =>
        decide_eq_true (le_trans (of_decide_eq_true h₁) (of_decide_eq_true h₂)))
      (fun a b => by
        simp only [Bool.or_eq_true, decide_eq_true_eq]
        exact le_total a.name b.name)
      (build_sdk_list config o)
    exact h.imp (fun hab => of_decide_eq_true hab)
  have hn₁ : ((sorted_sdk_list config o₁).map SdkEntry.name).Nodup :=
    ((hp₁.map SdkEntry.name).nodup_iff).mpr hnodup
  have hn₂ : ((sorted_sdk_list config o₂).map SdkEntry.name).Nodup :=
    ((hp₂.map SdkEntry.name).nodup_iff).mpr
      (((hraw.map SdkEntry.name).nodup_iff).mp hnodup)
  have hne₁ : (sorted_sdk_list config o₁).Pairwise (fun a b => a.name ≠ b.name) :=
    List.pairwise_map.mp hn₁
  have hne₂ : (sorted_sdk_list config o₂).Pairwise (fun a b => a.name ≠ b.name) :=
    List.pairwise_map.mp hn₂
  have hlt₁ : (sorted_sdk_list config o₁).Pairwise (fun a b => a.name < b.name) :=
    ((hsortedAll o₁).and hne₁).imp (fun h => lt_of_le_of_ne h.1 h.2)
  have hlt₂ : (sorted_sdk_list config o₂).Pairwise (fun a b => a.name < b.name) :=
    ((hsortedAll o₂).and hne₂).imp (fun h => lt_of_le_of_ne h.1 h.2)
  haveI : IsAntisymm SdkEntry (fun a b => a.name < b.name) :=
    ⟨fun a b h₁ h₂ => absurd h₂ (lt_asymm h₁)⟩
  exact List.eq_of_perm_of_sorted hs hlt₁ hlt₂

/-- C3, witness: the two-language catalog `configA` yields the same sorted
kit list under both enumeration orders of its selected languages. -/
theorem sdk_list_deterministic_witness :
    sorted_sdk_list configA ["python", "javascript"]
      = sorted_sdk_list configA ["javascript", "python"] :=
  sdk_list_deterministic configA _ _ (List.Perm.swap _ _ _) (by decide)

theorem digit_not_keyword (choice : String) (h : isDigitString choice = true) :
    (choice == "done") = false ∧ (choice == "a") = false ∧ (choice == "n") = false := by
  refine ⟨?_, ?_, ?_⟩ <;> rw [beq_eq_false_iff_ne] <;> rintro rfl <;>
    exact absurd h (by decide)

theorem select_languages_step_toggle (languages : List String) (choice : String)
    (hdig : isDigitString choice = true)
    (hidx : 0 ≤ choiceIndex choice ∧ choiceIndex choice < languages.length)
    (s : Finset String) :
    select_languages_step languages s choice =
      (if languages.getD (choiceIndex choice).toNat "" ∈ s
       then ⟨false, s.erase (languages.getD (choiceIndex choice).toNat ""), MenuMsg.toggledOff⟩
       else ⟨false, insert (languages.getD (choiceIndex choice).toNat "") s,
             MenuMsg.toggledOn⟩) := by
  obtain ⟨hd, ha, hn⟩ := digit_not_keyword choice hdig
  rw [select_languages_step]
  simp only [hd, ha, hn, hdig, Bool.false_eq_true, reduceIte, if_pos hidx]

theorem display_sdk_menu_step_toggle (n : Nat) (choice : String)
    (hdig : isDigitString choice = true)
    (hidx : 0 ≤ choiceIndex choice ∧ choiceIndex choice < n)
    (s : Finset Nat) :
    display_sdk_menu_step n s choice =
      (if (choiceIndex choice).toNat ∈ s
       then ⟨false, s.erase (choiceIndex choice).toNat, MenuMsg.toggledOff⟩
       else ⟨false, insert (choiceIndex choice).toNat s, MenuMsg.toggledOn⟩) := by
  obtain ⟨hd, ha, hn⟩ := digit_not_keyword choice hdig
  rw [display_sdk_menu_step]
  simp only [hd, ha, hn, hdig, Bool.false_eq_true, reduceIte, if_pos hidx]

/-- C7: in both selection stages, entering the same in-range index twice in
succession returns the selection set to its prior state. -/
theorem toggle_twice_restores :
    ∀ choice : String, isDigitString choice = true →
      (∀ (languages : List String) (s : Finset String),
        0 ≤ choiceIndex choice ∧ choiceIndex choice < languages.length →
        (select_languages_step languages
          (select_languages_step languages s choice).selected choice).selected = s)
      ∧ (∀ (n : Nat) (s : Finset Nat),
        0 ≤ choiceIndex choice ∧ choiceIndex choice < n →
        (display_sdk_menu_step n
          (display_sdk_menu_step n s choice).selected choice).selected = s) := by
  intro choice hdig
  constructor
  · intro languages s hidx
    rw [select_languages_step_toggle languages choice hdig hidx s]
    by_cases hmem : languages.getD (choiceIndex choice).toNat "" ∈ s
    · rw [if_pos hmem]
      rw [select_languages_step_toggle languages choice hdig hidx _]
      rw [if_neg (Finset.not_mem_erase _ _)]
      exact Finset.insert_erase hmem
    · rw [if_neg hmem]
      rw [select_languages_step_toggle languages choice hdig hidx _]
      rw [if_pos (Finset.mem_insert_self _ _)]
      exact Finset.erase_insert hmem
  · intro n s hidx
    rw [display_sdk_menu_step_toggle n choice hdig hidx s]
    by_cases hmem : (choiceIndex choice).toNat ∈ s
    · rw [if_pos hmem]
      rw [display_sdk_menu_step_toggle n choice hdig hidx _]
      rw [if_neg (Finset.not_mem_erase _ _)]
      exact Finset.insert_erase hmem
    · rw [if_neg hmem]
      rw [display_sdk_menu_step_toggle n choice hdig hidx _]
      rw [if_pos (Finset.mem_insert_self _ _)]
      exact Finset.erase_insert hmem

/-- C7, witness: toggling index 1 twice on a two-element menu with an empty
initial selection restores the empty selection, in both stages. -/
theorem toggle_twice_restores_witness :
    (0 ≤ choiceIndex "1" ∧ choiceIndex "1" < (["x", "y"] : List String).length)
    ∧ (select_languages_step ["x", "y"]
        (select_languages_step ["x", "y"] ∅ "1").selected "1").selected = ∅
    ∧ (display_sdk_menu_step 2
        (display_sdk_menu_step 2 ∅ "1").selected "1").selected = ∅ :=
  ⟨by decide,
   (toggle_twice_restores "1" (by decide)).1 ["x", "y"] ∅ (by decide),
   (toggle_twice_restores "1" (by decide)).2 2 ∅ (by decide)⟩

/-- C8: in both selection stages, `"done"` on an empty selection reports a
warning and does not exit the loop, and no input whatsoever can exit the
loop while the selection set is empty. -/
theorem confirm_requires_nonempty :
    (∀ (languages : List String) (s : Finset String),
      (s = ∅ → select_languages_step languages s "done" = ⟨false, s, MenuMsg.warnEmpty⟩)
      ∧ ∀ choice, (select_languages_step languages s choice).done = true → s ≠ ∅)
    ∧ (∀ (n : Nat) (s : Finset Nat),
      (s = ∅ → display_sdk_menu_step n s "done" = ⟨false, s, MenuMsg.warnEmpty⟩)
      ∧ ∀ choice, (display_sdk_menu_step n s choice).done = true → s ≠ ∅) := by
  constructor
  · intro languages s
    constructor
    · intro hempty
      rw [select_languages_step]
      simp [hempty]
    · intro choice hdone
      rw [select_languages_step] at hdone
      split_ifs at hdone
      all_goals simp_all
  · intro n s
    constructor
    · intro hempty
      rw [display_sdk_menu_step]
      simp [hempty]
    · intro choice hdone
      rw [display_sdk_menu_step] at hdone
      split_ifs at hdone
      all_goals simp_all

/-- C8, witness: `"done"` on an empty stage-1 selection warns and keeps
looping; `"done"` on a nonempty stage-2 selection exits with a nonempty
set. -/
theorem confirm_requires_nonempty_witness :
    select_languages_step ["x"] ∅ "done" = ⟨false, ∅, MenuMsg.warnEmpty⟩
    ∧ ({0} : Finset Nat) ≠ ∅ :=
  ⟨(confirm_requires_nonempty.1 ["x"] ∅).1 rfl,
   (confirm_requires_nonempty.2 3 {0}).2 "done" (by decide)⟩

theorem py_digit_not_keyword (choice : String) (h : pyIsDigitString choice = true) :
    (choice == "done") = false ∧ (choice == "a") = false ∧ (choice == "n") = false := by
  refine ⟨?_, ?_, ?_⟩ <;> rw [beq_eq_false_iff_ne] <;> rintro rfl <;>
    exact absurd h (by decide)

/-- C9, counterexample: the superscript digit `"²"` is an input the claim
calls unrecognized, so the claim predicts an error report with the loop
continuing; but Python classifies it as a digit string, `int("²")` raises
`ValueError`, and in both stages the loop body aborts the run instead of
continuing (`none`). -/
theorem invalid_input_crash_counterexample :
    pyIsDigitString "²" = true
    ∧ pyIntOfDigits? "²" = none
    ∧ select_languages_step_py ["x", "y"] {"x"} "²" = none
    ∧ display_sdk_menu_step_py 2 {0} "²" = none :=
  ⟨by decide, by decide, by decide, by decide⟩

/-- C9 (amended): in both selection stages, for every selection state: a
digit-classified input that `int` parses to an out-of-range index reports
"invalid selection number" and an input that is none of the commands and
not digit-classified reports "invalid choice" — in both cases the
selection set is unchanged and the loop continues — but a digit-classified
input that `int` cannot parse (a non-decimal digit character such as
`'²'`) raises `ValueError`, escaping the loop and aborting the run. -/
theorem invalid_input_frame_py :
    ∀ choice : String,
      (∀ (languages : List String) (s : Finset String),
        (∀ v : Nat, pyIsDigitString choice = true → pyIntOfDigits? choice = some v →
          ¬ (0 ≤ (v : Int) - 1 ∧ (v : Int) - 1 < languages.length) →
          select_languages_step_py languages s choice
            = some ⟨false, s, MenuMsg.invalidNumber⟩)
        ∧ (choice ≠ "done" → choice ≠ "a" → choice ≠ "n" → pyIsDigitString choice = false →
          select_languages_step_py languages s choice
            = some ⟨false, s, MenuMsg.invalidChoice⟩)
        ∧ (pyIsDigitString choice = true → pyIntOfDigits? choice = none →
          select_languages_step_py languages s choice = none))
      ∧ (∀ (n : Nat) (s : Finset Nat),
        (∀ v : Nat, pyIsDigitString choice = true → pyIntOfDigits? choice = some v →
          ¬ (0 ≤ (v : Int) - 1 ∧ (v : Int) - 1 < n) →
          display_sdk_menu_step_py n s choice
            = some ⟨false, s, MenuMsg.invalidNumber⟩)
        ∧ (choice ≠ "done" → choice ≠ "a" → choice ≠ "n" → pyIsDigitString choice = false →
          display_sdk_menu_step_py n s choice
            = some ⟨false, s, MenuMsg.invalidChoice⟩)
        ∧ (pyIsDigitString choice = true → pyIntOfDigits? choice = none →
          display_sdk_menu_step_py n s choice = none)) := by
  intro choice
  constructor
  · intro languages s
    refine ⟨?_, ?_, ?_⟩
    · intro v hdig hint hrange
      obtain ⟨hd, ha, hn⟩ := py_digit_not_keyword choice hdig
      rw [select_languages_step_py]
      simp only [hd, ha, hn, hdig, hint, Bool.false_eq_true, reduceIte, if_neg hrange]
    · intro hd ha hn hdig
      rw [select_languages_step_py]
      simp only [beq_eq_false_iff_ne.mpr hd, beq_eq_false_iff_ne.mpr ha,
        beq_eq_false_iff_ne.mpr hn, hdig, Bool.false_eq_true, reduceIte]
    · intro hdig hint
      obtain ⟨hd, ha, hn⟩ := py_digit_not_keyword choice hdig
      rw [select_languages_step_py]
      simp only [hd, ha, hn, hdig, hint, Bool.false_eq_true, reduceIte]
  · intro n s
    refine ⟨?_, ?_, ?_⟩
    · intro v hdig hint hrange
      obtain ⟨hd, ha, hn⟩ := py_digit_not_keyword choice hdig
      rw [display_sdk_menu_step_py]
      simp only [hd, ha, hn, hdig, hint, Bool.false_eq_true, reduceIte, if_neg hrange]
    · intro hd ha hn hdig
      rw [display_sdk_menu_step_py]
      simp only [beq_eq_false_iff_ne.mpr hd, beq_eq_false_iff_ne.mpr ha,
        beq_eq_false_iff_ne.mpr hn, hdig, Bool.false_eq_true, reduceIte]
    · intro hdig hint
      obtain ⟨hd, ha, hn⟩ := py_digit_not_keyword choice hdig
      rw [display_sdk_menu_step_py]
      simp only [hd, ha, hn, hdig, hint, Bool.false_eq_true, reduceIte]

/-- C9, witness: the out-of-range decimal index `"99"`, the unrecognized
input `"xyz"`, and the digit-classified but unparseable `"²"`, each at a
concrete selection state. -/
theorem invalid_input_frame_py_witness :
    select_languages_step_py ["x", "y"] {"x"} "99"
      = some ⟨false, {"x"}, MenuMsg.invalidNumber⟩
    ∧ display_sdk_menu_step_py 2 {0} "xyz" = some ⟨false, {0}, MenuMsg.invalidChoice⟩
    ∧ display_sdk_menu_step_py 2 {0} "²" = none :=
  ⟨((invalid_input_frame_py "99").1 ["x", "y"] {"x"}).1 99 (by decide) (by decide)
      (by decide),
   ((invalid_input_frame_py "xyz").2 2 {0}).2.1 (by decide) (by decide) (by decide)
      (by decide),
   ((invalid_input_frame_py "²").2 2 {0}).2.2 (by decide) (by decide)⟩

/-- C10: on entry to stage 1 every language of the catalog is already in
the selection set (all pre-selected), while stage 2 starts with no kit
selected. -/
theorem initial_selection_states :
    (∀ (languages : List String) (k : String), k ∈ languages →
      k ∈ select_languages_init languages)
    ∧ ∀ i : Nat, i ∉ display_sdk_menu_init := by
  constructor
  · intro languages k hk
    rw [select_languages_init]
    exact List.mem_toFinset.mpr hk
  · intro i
    rw [display_sdk_menu_init]
    exact Finset.not_mem_empty i

/-- C10, witness: both initial-state facts at concrete inputs. -/
theorem initial_selection_states_witness :
    "python" ∈ select_languages_init ["python", "javascript"]
    ∧ 0 ∉ display_sdk_menu_init :=
  ⟨initial_selection_states.1 ["python", "javascript"] "python" (by decide),
   initial_selection_states.2 0⟩
